import Mathlib

/-!
Verification of the Mixpanel outbound integration (segment-boneyard/integration-mixpanel).

This file gives a shallow embedding of the event-to-payload transformation engine of
src/lib/index.js (the latest version of the library present in the sources) together with
the validation rules, and proves or refutes the frozen claims about it.

Modelling conventions:
- JavaScript dynamic values are the inductive type Val (string, number, boolean, null,
  undefined, Date, array, plain object).  Plain objects are association lists with unique
  keys in insertion order, which is exactly the iteration order JavaScript guarantees for
  string keys.
- Numbers are rationals.  Dates carry their epoch-milliseconds value.
- The base64 step of b64encode is an external injective transport encoding (the spec
  treats base64/JSON encoding primitives as standard library functions), so payloads are
  carried as their JSON serialization.
- Machine time (Date.now()) is an explicit parameter named now, in epoch milliseconds.
-/

namespace Mixpanel

/-- A JavaScript value as it can appear in trait/property maps: the cases this
integration distinguishes are strings, numbers, booleans, null, undefined, Date objects
(carried as epoch milliseconds), arrays and plain objects. -/
inductive Val where
  | vStr (s : String)
  | vNum (q : Rat)
  | vBool (b : Bool)
  | vNull
  | vUndefined
  | vDate (ms : Int)
  | vArr (xs : List Val)
  | vObj (fs : List (String × Val))

open Val

/-- The is.object test of the is package used by the source: true exactly for plain
objects (toString gives [object Object]), so not for arrays, dates or null. -/
def isObject : Val → Bool
  | .vObj _ => true
  | _ => false

/-- JavaScript truthiness of a value. -/
def jsTruthy : Val → Bool
  | .vStr s => s ≠ ""
  | .vNum q => q ≠ 0
  | .vBool b => b
  | .vNull => false
  | .vUndefined => false
  | .vDate _ => true
  | .vArr _ => true
  | .vObj _ => true

/-- True for null and undefined, the values skipped by the facade alias pass and removed
by the reject package. -/
def isNullish : Val → Bool
  | .vNull => true
  | .vUndefined => true
  | _ => false

/-- Two-digit zero padding for date components. -/
def pad2 (n : Nat) : String :=
  if n < 10 then "0" ++ toString n else toString n

/-- Three-digit zero padding for milliseconds. -/
def pad3 (n : Nat) : String :=
  if n < 10 then "00" ++ toString n
  else if n < 100 then "0" ++ toString n
  else toString n

/-- Four-digit zero padding for years (the expanded-year formats used by JavaScript
outside years 0..9999 are not modelled; no claim exercises them). -/
def pad4 (n : Int) : String :=
  let m := n.toNat
  (if m < 10 then "000" else if m < 100 then "00" else if m < 1000 then "0" else "")
    ++ toString m

/-- Convert a day count relative to the epoch into a civil (year, month, day) triple,
following the standard proleptic-Gregorian algorithm. -/
def civilFromDays (z0 : Int) : Int × Int × Int :=
  let z := z0 + 719468
  let era := z.fdiv 146097
  let doe := z - era * 146097
  let yoe := (doe - doe.fdiv 1460 + doe.fdiv 36524 - doe.fdiv 146096).fdiv 365
  let y := yoe + era * 400
  let doy := doe - (365 * yoe + yoe.fdiv 4 - yoe.fdiv 100)
  let mp := (5 * doy + 2).fdiv 153
  let d := doy - (153 * mp + 2).fdiv 5 + 1
  let m := if mp < 10 then mp + 3 else mp - 9
  (if m ≤ 2 then y + 1 else y, m, d)

/-- Convert a civil date into a day count relative to the epoch (inverse of
civilFromDays). -/
def daysFromCivil (y0 m d : Int) : Int :=
  let y := if m ≤ 2 then y0 - 1 else y0
  let era := y.fdiv 400
  let yoe := y - era * 400
  let doy := (153 * (if m > 2 then m - 3 else m + 9) + 2).fdiv 5 + d - 1
  let doe := yoe * 365 + yoe.fdiv 4 - yoe.fdiv 100 + doy
  era * 146097 + doe - 719468

/-- The full ISO-8601 UTC rendering of an epoch-milliseconds value, as produced by
Date.prototype.toISOString. -/
def isoOfEpochMs (ms : Int) : String :=
  let days := ms.fdiv 86400000
  let rem := ms - days * 86400000
  let c := civilFromDays days
  let hh := rem.fdiv 3600000
  let mi := rem.fdiv 60000 - 60 * hh
  let ss := rem.fdiv 1000 - 60 * (rem.fdiv 60000)
  let mil := rem - 1000 * (rem.fdiv 1000)
  pad4 c.1 ++ "-" ++ pad2 c.2.1.toNat ++ "-" ++ pad2 c.2.2.toNat ++ "T" ++
    pad2 hh.toNat ++ ":" ++ pad2 mi.toNat ++ ":" ++ pad2 ss.toNat ++ "." ++
    pad3 mil.toNat ++ "Z"

/-- Read a decimal digit character. -/
def digitVal (c : Char) : Option Nat :=
  if c.isDigit then some (c.toNat - 48) else none

/-- Read a two-digit decimal number from two characters. -/
def num2 (a b : Char) : Option Nat := do
  let x ← digitVal a
  let y ← digitVal b
  pure (10 * x + y)

/-- Read a four-digit decimal number from four characters. -/
def num4 (a b c d : Char) : Option Nat := do
  let x ← num2 a b
  let y ← num2 c d
  pure (100 * x + y)

/-- Combine parsed ISO date components into an epoch-milliseconds value, with the basic
range checks JavaScript date parsing performs. -/
def epochOfIso (y mo d hh mi ss mil : Nat) : Option Int :=
  if 1 ≤ mo ∧ mo ≤ 12 ∧ 1 ≤ d ∧ d ≤ 31 ∧ hh ≤ 23 ∧ mi ≤ 59 ∧ ss ≤ 59 then
    some (daysFromCivil y mo d * 86400000 +
      (hh : Int) * 3600000 + (mi : Int) * 60000 + (ss : Int) * 1000 + (mil : Int))
  else none

/-- Date parsing for strings: models the ISO-8601 UTC formats YYYY-MM-DDTHH:MM:SSZ and
YYYY-MM-DDTHH:MM:SS.mmmZ accepted by JavaScript Date parsing.  Other string formats are
treated as invalid dates; no claim depends on them. -/
def parseIsoString (s : String) : Option Int :=
  match s.toList with
  | [a, b, c, d, '-', e, f, '-', g, h, 'T', i, j, ':', k, l, ':', m, n, 'Z'] => do
    let y ← num4 a b c d
    let mo ← num2 e f
    let dd ← num2 g h
    let hh ← num2 i j
    let mi ← num2 k l
    let ss ← num2 m n
    epochOfIso y mo dd hh mi ss 0
  | [a, b, c, d, '-', e, f, '-', g, h, 'T', i, j, ':', k, l, ':', m, n, '.', p, q, r,
      'Z'] => do
    let y ← num4 a b c d
    let mo ← num2 e f
    let dd ← num2 g h
    let hh ← num2 i j
    let mi ← num2 k l
    let ss ← num2 m n
    let x1 ← digitVal p
    let x2 ← digitVal q
    let x3 ← digitVal r
    epochOfIso y mo dd hh mi ss (100 * x1 + 10 * x2 + x3)
  | _ => none

/-- The time value of new Date(v) for a value v, none when the result is an invalid
date: Date objects are copied, numbers are used as epoch milliseconds when inside the
JavaScript time range (fractional values floored), booleans and null coerce through
ToNumber, strings go through date parsing, and everything else is invalid. -/
def valToEpochMs : Val → Option Int
  | .vDate ms => some ms
  | .vNum q =>
    if q.floor.natAbs ≤ 8640000000000000 then some q.floor else none
  | .vBool b => some (if b then 1 else 0)
  | .vNull => some 0
  | .vStr s => parseIsoString s
  | .vUndefined => none
  | .vArr _ => none
  | .vObj _ => none

/-- formatDate from the source: new Date(date), undefined when invalid, otherwise the
first 19 characters of the ISO string (YYYY-MM-DDTHH:MM:SS). -/
def formatDate (v : Val) : Option String :=
  (valToEpochMs v).map (fun ms => (isoOfEpochMs ms).take 19)

/-- formatDate as a value: the formatted string, or undefined for an invalid date. -/
def formatDateVal (v : Val) : Val :=
  match formatDate v with
  | some s => .vStr s
  | none => .vUndefined

/-- Number rendering for the JSON model; integers render exactly, non-integers via the
Rat rendering (the exact decimal text of the external JSON primitive is not modelled). -/
def ratLit (q : Rat) : String :=
  if q.den = 1 then toString q.num else toString q

/-- String quoting for the JSON model (escaping belongs to the external primitive). -/
def quoteStr (s : String) : String := "\"" ++ s ++ "\""

mutual

/-- Structural model of JSON.stringify on values.  Per JSON.stringify, undefined-valued
object entries are dropped and undefined array elements serialize as null. -/
def jsonStringify : Val → String
  | .vStr s => quoteStr s
  | .vNum q => ratLit q
  | .vBool b => if b then "true" else "false"
  | .vNull => "null"
  | .vUndefined => "null"
  | .vDate ms => quoteStr (isoOfEpochMs ms)
  | .vArr xs => "[" ++ String.intercalate "," (jsonList xs) ++ "]"
  | .vObj fs => "\x7b" ++ String.intercalate "," (jsonFields fs) ++ "\x7d"

/-- Serialize the elements of a JSON array. -/
def jsonList : List Val → List String
  | [] => []
  | x :: xs => jsonStringify x :: jsonList xs

/-- Serialize the entries of a JSON object, skipping undefined values. -/
def jsonFields : List (String × Val) → List String
  | [] => []
  | (_, .vUndefined) :: fs => jsonFields fs
  | (k, v) :: fs => (quoteStr k ++ ":" ++ jsonStringify v) :: jsonFields fs

end

/-- A trait or property map: an association list in JavaScript object iteration order. -/
abbrev TMap := List (String × Val)

/-- First-match key lookup, the JavaScript property read. -/
def mlookup : TMap → String → Option Val
  | [], _ => none
  | p :: rest, k => if p.1 = k then some p.2 else mlookup rest k

/-- JavaScript property write: update the value in place when the key exists, append
otherwise. -/
def minsert (k : String) (v : Val) : TMap → TMap
  | [] => [(k, v)]
  | p :: rest => if p.1 = k then (k, v) :: rest else p :: minsert k v rest

/-- JavaScript delete of an exact key. -/
def meraseAll (k : String) : TMap → TMap
  | [] => []
  | p :: rest => if p.1 = k then meraseAll k rest else p :: meraseAll k rest

/-- obj-case deletion: remove the first entry (in iteration order) whose normalized key
matches the normalized search key. -/
def delNormFirst (nrm : String → String) (k : String) : TMap → TMap
  | [] => []
  | p :: rest => if nrm p.1 = nrm k then rest else p :: delNormFirst nrm k rest

/-- The custom normalizer passed to obj-case in formatTraits: strip every character that
is not a letter, digit, dot or dollar sign, then lowercase. -/
def specNorm (s : String) : String :=
  String.mk (((s.toList.filter
    (fun c => c.isAlpha || c.isDigit || c = '.' || c = '$'))).map Char.toLower)

/-- The default obj-case normalizer: strip every character that is not a letter, digit
or dot, then lowercase (dollar signs are stripped here, unlike specNorm). -/
def defaultNorm (s : String) : String :=
  String.mk (((s.toList.filter
    (fun c => c.isAlpha || c.isDigit || c = '.'))).map Char.toLower)

/-- One value of the stringifyValues pass: a plain-object value is replaced by its JSON
text, every other value is untouched. -/
def stringifyOne (v : Val) : Val :=
  if isObject v then .vStr (jsonStringify v) else v

/-- stringifyValues on the entries of an object. -/
def stringifyFields : TMap → TMap
  | [] => []
  | p :: rest => (p.1, stringifyOne p.2) :: stringifyFields rest

/-- stringifyValues from the source: non-objects are returned unchanged, objects have
each plain-object-valued entry replaced by its JSON text. -/
def stringifyValues (v : Val) : Val :=
  match v with
  | .vObj fs => .vObj (stringifyFields fs)
  | v => v

theorem mlookup_minsert_self (m : TMap) (k : String) (v : Val) :
    mlookup (minsert k v m) k = some v := by
  induction m with
  | nil => simp [minsert, mlookup]
  | cons p rest ih =>
    by_cases h : p.1 = k
    · simp [minsert, h, mlookup]
    · simp [minsert, h, mlookup, ih]

theorem mlookup_minsert_ne (m : TMap) (k j : String) (v : Val) (h : j ≠ k) :
    mlookup (minsert k v m) j = mlookup m j := by
  induction m with
  | nil => simp [minsert, mlookup, Ne.symm h]
  | cons p rest ih =>
    by_cases hp : p.1 = k
    · subst hp
      simp [minsert, mlookup, Ne.symm h]
    · simp only [minsert, if_neg hp, mlookup]
      by_cases hj : p.1 = j
      · simp [hj]
      · simp [hj, ih]

theorem mlookup_erase_self (m : TMap) (k : String) :
    mlookup (meraseAll k m) k = none := by
  induction m with
  | nil => simp [meraseAll, mlookup]
  | cons p rest ih =>
    by_cases h : p.1 = k
    · simp [meraseAll, h, ih]
    · simp [meraseAll, h, mlookup, ih]

theorem mlookup_erase_ne (m : TMap) (k j : String) (h : j ≠ k) :
    mlookup (meraseAll k m) j = mlookup m j := by
  induction m with
  | nil => simp [meraseAll]
  | cons p rest ih =>
    by_cases hp : p.1 = k
    · subst hp
      simp [meraseAll, mlookup, Ne.symm h, ih]
    · simp only [meraseAll, if_neg hp, mlookup]
      by_cases hj : p.1 = j
      · simp [hj]
      · simp [hj, ih]

theorem mlookup_delNorm_ne (nrm : String → String) (m : TMap) (k j : String)
    (h : nrm j ≠ nrm k) : mlookup (delNormFirst nrm k m) j = mlookup m j := by
  induction m with
  | nil => simp [delNormFirst]
  | cons p rest ih =>
    by_cases hp : nrm p.1 = nrm k
    · have hkey : p.1 ≠ j := by
        intro he
        exact h (he ▸ hp)
      simp [delNormFirst, hp, mlookup, hkey]
    · simp only [delNormFirst, if_neg hp, mlookup]
      by_cases hj : p.1 = j
      · simp [hj]
      · simp [hj, ih]

theorem mlookup_delNorm_none (nrm : String → String) (m : TMap) (k j : String)
    (h : mlookup m j = none) : mlookup (delNormFirst nrm k m) j = none := by
  induction m with
  | nil => simp [delNormFirst, h]
  | cons p rest ih =>
    simp only [mlookup] at h
    by_cases hj : p.1 = j
    · simp [hj] at h
    · simp only [if_neg hj] at h
      by_cases hp : nrm p.1 = nrm k
      · simp [delNormFirst, hp, h]
      · simp [delNormFirst, hp, mlookup, hj, ih h]

theorem mlookup_stringifyFields (m : TMap) (k : String) :
    mlookup (stringifyFields m) k = (mlookup m k).map stringifyOne := by
  induction m with
  | nil => simp [stringifyFields, mlookup]
  | cons p rest ih =>
    by_cases hj : p.1 = k
    · simp [stringifyFields, mlookup, hj]
    · simp [stringifyFields, mlookup, hj, ih]

/-- The integration settings recognized by the claims: destination token, conditionally
required access key, people-profile toggle, increment allow-list, the legacy
super-property prefix toggle and the page/screen fan-out flags. -/
structure Settings where
  token : Option String
  apiKey : Option String
  people : Bool
  increments : List String
  legacySuperProperties : Bool
  trackAllPages : Bool
  trackCategorizedPages : Bool
  trackNamedPages : Bool
  consolidatedPageCalls : Bool

/-- The fixed trait alias table of the source (traitAliases), in object-literal order. -/
def traitAliases : List (String × String) :=
  [("created", "$created"), ("createdAt", "$created"), ("email", "$email"),
   ("firstName", "$first_name"), ("lastName", "$last_name"), ("lastSeen", "$last_seen"),
   ("name", "$name"), ("username", "$username"), ("phone", "$phone"),
   ("token", "trait_token")]

/-- One alias step of segmentio-facade traits(aliases): when the source key holds a
non-null value, write it under the destination key and delete the source key; null and
undefined values are skipped.  The accessor-derived fallbacks of the facade (splitting
name into first and last name, proxy lookups, the id injection) are not modelled; the
claims quantify over directly present keys. -/
def renameTrait (g d : String) (m : TMap) : TMap :=
  match mlookup m g with
  | some v => if isNullish v then m else minsert d v (meraseAll g m)
  | none => m

/-- identify.traits(traitAliases): apply every alias of the table in order. -/
def applyAliases (m : TMap) : TMap :=
  traitAliases.foldl (fun acc p => renameTrait p.1 p.2 acc) m

/-- The deletion loop of formatTraits: for every alias source key, the obj-case delete
with the custom normalizer removes the first entry whose normalized key matches. -/
def delAliasKeys (m : TMap) : TMap :=
  traitAliases.foldl (fun acc p => delNormFirst specNorm p.1 acc) m

/-- The $created formatting step of formatTraits: when $created holds a truthy value it
is replaced by its formatted date. -/
def formatCreated (m : TMap) : TMap :=
  match mlookup m "$created" with
  | some v => if jsTruthy v then minsert "$created" (formatDateVal v) m else m
  | none => m

/-- formatTraits from the source: rename the special Segment traits to their Mixpanel
names, delete the leftover Segment names (normalized), delete $name (the facade already
decomposes name into firstName and lastName), format $created, and stringify nested
object values. -/
def formatTraits (m : TMap) : TMap :=
  stringifyFields (formatCreated (meraseAll "$name" (delAliasKeys (applyAliases m))))

theorem mlookup_rename_ne (g d : String) (m : TMap) (j : String) (h1 : j ≠ g)
    (h2 : j ≠ d) : mlookup (renameTrait g d m) j = mlookup m j := by
  unfold renameTrait
  cases hg : mlookup m g with
  | none => rfl
  | some v =>
    by_cases hn : isNullish v
    · simp [hn]
    · simp [hn, mlookup_minsert_ne _ _ _ _ h2, mlookup_erase_ne _ _ _ h1]

theorem mlookup_rename_self (g d : String) (m : TMap) (v : Val) (hd : d ≠ g)
    (hg : mlookup m g = some v) (hv : isNullish v = false) :
    mlookup (renameTrait g d m) g = none := by
  unfold renameTrait
  simp [hg, hv, mlookup_minsert_ne _ _ _ _ (Ne.symm hd), mlookup_erase_self]

theorem mlookup_rename_absent (g d : String) (m : TMap) (hg : mlookup m g = none) :
    mlookup (renameTrait g d m) g = none := by
  unfold renameTrait
  simp [hg]

theorem mlookup_rename_dest (g d : String) (m : TMap) (v : Val)
    (hg : mlookup m g = some v) (hv : isNullish v = false) :
    mlookup (renameTrait g d m) d = some v := by
  unfold renameTrait
  simp [hg, hv, mlookup_minsert_self]

theorem rename_of_absent (g d : String) (m : TMap) (hg : mlookup m g = none) :
    renameTrait g d m = m := by
  unfold renameTrait
  simp [hg]

theorem rename_of_nullish (g d : String) (m : TMap) (v : Val)
    (hg : mlookup m g = some v) (hv : isNullish v = true) :
    renameTrait g d m = m := by
  unfold renameTrait
  simp [hg, hv]

theorem mlookup_formatCreated_ne (m : TMap) (j : String) (h : j ≠ "$created") :
    mlookup (formatCreated m) j = mlookup m j := by
  unfold formatCreated
  cases hc : mlookup m "$created" with
  | none => rfl
  | some v =>
    by_cases ht : jsTruthy v
    · simp [ht, mlookup_minsert_ne _ _ _ _ h]
    · simp [ht]

theorem mlookup_formatCreated_self (m : TMap) :
    mlookup (formatCreated m) "$created" =
      (mlookup m "$created").map (fun v => if jsTruthy v then formatDateVal v else v) := by
  unfold formatCreated
  cases hc : mlookup m "$created" with
  | none => simp [hc]
  | some v =>
    by_cases ht : jsTruthy v
    · simp [ht, mlookup_minsert_self, hc]
    · simp [ht, hc]

theorem mlookup_delAliasKeys_none (m : TMap) (j : String) (h : mlookup m j = none) :
    mlookup (delAliasKeys m) j = none := by
  simp only [delAliasKeys, traitAliases, List.foldl]
  exact mlookup_delNorm_none _ _ _ _ (mlookup_delNorm_none _ _ _ _
    (mlookup_delNorm_none _ _ _ _ (mlookup_delNorm_none _ _ _ _
    (mlookup_delNorm_none _ _ _ _ (mlookup_delNorm_none _ _ _ _
    (mlookup_delNorm_none _ _ _ _ (mlookup_delNorm_none _ _ _ _
    (mlookup_delNorm_none _ _ _ _ (mlookup_delNorm_none _ _ _ _ h)))))))))

theorem mlookup_delAliasKeys_far (m : TMap) (j : String)
    (h : ∀ p ∈ traitAliases, specNorm j ≠ specNorm p.1) :
    mlookup (delAliasKeys m) j = mlookup m j := by
  simp only [delAliasKeys, traitAliases, List.foldl]
  rw [mlookup_delNorm_ne _ _ _ _ (h ("token", "trait_token") (by simp [traitAliases])),
    mlookup_delNorm_ne _ _ _ _ (h ("phone", "$phone") (by simp [traitAliases])),
    mlookup_delNorm_ne _ _ _ _ (h ("username", "$username") (by simp [traitAliases])),
    mlookup_delNorm_ne _ _ _ _ (h ("name", "$name") (by simp [traitAliases])),
    mlookup_delNorm_ne _ _ _ _ (h ("lastSeen", "$last_seen") (by simp [traitAliases])),
    mlookup_delNorm_ne _ _ _ _ (h ("lastName", "$last_name") (by simp [traitAliases])),
    mlookup_delNorm_ne _ _ _ _ (h ("firstName", "$first_name") (by simp [traitAliases])),
    mlookup_delNorm_ne _ _ _ _ (h ("email", "$email") (by simp [traitAliases])),
    mlookup_delNorm_ne _ _ _ _ (h ("createdAt", "$created") (by simp [traitAliases])),
    mlookup_delNorm_ne _ _ _ _ (h ("created", "$created") (by simp [traitAliases]))]

theorem foldl_rename_pres (ks : List (String × String)) (m : TMap) (g : String)
    (h : ∀ p ∈ ks, g ≠ p.1 ∧ g ≠ p.2) :
    mlookup (ks.foldl (fun acc p => renameTrait p.1 p.2 acc) m) g = mlookup m g := by
  induction ks generalizing m with
  | nil => rfl
  | cons p rest ih =>
    have hp := h p (by simp)
    rw [List.foldl_cons, ih _ (fun q hq => h q (by simp [hq])),
      mlookup_rename_ne _ _ _ _ hp.1 hp.2]

theorem applyAliases_gone (g d : String) (pre post : List (String × String)) (m : TMap)
    (hsplit : traitAliases = pre ++ (g, d) :: post)
    (hpre : ∀ p ∈ pre, g ≠ p.1 ∧ g ≠ p.2)
    (hpost : ∀ p ∈ post, g ≠ p.1 ∧ g ≠ p.2)
    (hd : d ≠ g)
    (hnn : ∀ v, mlookup m g = some v → isNullish v = false) :
    mlookup (applyAliases m) g = none := by
  unfold applyAliases
  rw [hsplit, List.foldl_append, List.foldl_cons, foldl_rename_pres _ _ _ hpost]
  have hpre2 := foldl_rename_pres pre m g hpre
  cases hv : mlookup (pre.foldl (fun acc p => renameTrait p.1 p.2 acc) m) g with
  | none => exact mlookup_rename_absent _ _ _ hv
  | some v =>
    exact mlookup_rename_self _ _ _ _ hd hv (hnn v (hpre2.symm.trans hv))

theorem applyAliases_dest (g d : String) (pre post : List (String × String)) (m : TMap)
    (v : Val)
    (hsplit : traitAliases = pre ++ (g, d) :: post)
    (hpre : ∀ p ∈ pre, g ≠ p.1 ∧ g ≠ p.2)
    (hpost : ∀ p ∈ post, d ≠ p.1 ∧ d ≠ p.2)
    (hg : mlookup m g = some v) (hv : isNullish v = false) :
    mlookup (applyAliases m) d = some v := by
  unfold applyAliases
  rw [hsplit, List.foldl_append, List.foldl_cons, foldl_rename_pres _ _ _ hpost]
  exact mlookup_rename_dest _ _ _ _ ((foldl_rename_pres pre m g hpre).trans hg) hv

theorem applyAliases_created_only (m : TMap) (v : Val)
    (hca : mlookup m "createdAt" = none)
    (hg : mlookup m "created" = some v) (hv : isNullish v = false) :
    mlookup (applyAliases m) "$created" = some v := by
  unfold applyAliases
  simp only [traitAliases, List.foldl_cons, List.foldl_nil]
  rw [rename_of_absent "createdAt" "$created" _
    (by rw [mlookup_rename_ne _ _ _ _ (by decide) (by decide)]; exact hca)]
  rw [mlookup_rename_ne _ _ _ _ (by decide) (by decide),
    mlookup_rename_ne _ _ _ _ (by decide) (by decide),
    mlookup_rename_ne _ _ _ _ (by decide) (by decide),
    mlookup_rename_ne _ _ _ _ (by decide) (by decide),
    mlookup_rename_ne _ _ _ _ (by decide) (by decide),
    mlookup_rename_ne _ _ _ _ (by decide) (by decide),
    mlookup_rename_ne _ _ _ _ (by decide) (by decide),
    mlookup_rename_ne _ _ _ _ (by decide) (by decide)]
  exact mlookup_rename_dest _ _ _ _ hg hv

theorem formatTraits_generic_gone (m : TMap) (g : String)
    (hgone : mlookup (applyAliases m) g = none)
    (h1 : g ≠ "$name") (h2 : g ≠ "$created") :
    mlookup (formatTraits m) g = none := by
  unfold formatTraits
  rw [mlookup_stringifyFields, mlookup_formatCreated_ne _ _ h2,
    mlookup_erase_ne _ _ _ h1, mlookup_delAliasKeys_none _ _ hgone]
  rfl

theorem formatTraits_dest (m : TMap) (d : String) (v : Val)
    (hdest : mlookup (applyAliases m) d = some v)
    (hfar : ∀ p ∈ traitAliases, specNorm d ≠ specNorm p.1)
    (h1 : d ≠ "$name") (h2 : d ≠ "$created") :
    mlookup (formatTraits m) d = some (stringifyOne v) := by
  unfold formatTraits
  rw [mlookup_stringifyFields, mlookup_formatCreated_ne _ _ h2,
    mlookup_erase_ne _ _ _ h1, mlookup_delAliasKeys_far _ _ hfar, hdest]
  rfl

theorem formatTraits_created_dest (m : TMap) (v : Val)
    (hdest : mlookup (applyAliases m) "$created" = some v) :
    mlookup (formatTraits m) "$created" =
      some (stringifyOne (if jsTruthy v then formatDateVal v else v)) := by
  unfold formatTraits
  rw [mlookup_stringifyFields, mlookup_formatCreated_self,
    mlookup_erase_ne _ _ _ (by decide), mlookup_delAliasKeys_far _ _ (by decide), hdest]
  rfl

theorem formatTraits_dollar_name (m : TMap) :
    mlookup (formatTraits m) "$name" = none := by
  unfold formatTraits
  rw [mlookup_stringifyFields, mlookup_formatCreated_ne _ _ (by decide),
    mlookup_erase_self]
  rfl

/-- An outbound HTTP request descriptor: method, endpoint path, whether an explicit
zero Content-Length header is set, and the query parameters in the order they are
attached.  The data parameter carries the JSON serialization of the payload (base64 is
an external injective transport encoding and is not modelled). -/
structure Call where
  method : String
  endpoint : String
  lengthZero : Bool
  query : List (String × String)

/-- b64encode from the source, modulo the external base64 step: the payload is carried
as its JSON text. -/
def b64encode (p : Val) : String := jsonStringify p

/-- An optional string as a JavaScript value (undefined when absent). -/
def optStr : Option String → Val
  | some s => .vStr s
  | none => .vUndefined

/-- An optional value as a JavaScript value (undefined when absent). -/
def optVal : Option Val → Val
  | some v => v
  | none => .vUndefined

/-- JavaScript truthiness of an optional string (absent and empty are falsy). -/
def jsTruthyOptStr : Option String → Bool
  | some s => s ≠ ""
  | none => false

/-- JavaScript truthiness of an optional value. -/
def jsTruthyOpt : Option Val → Bool
  | some v => jsTruthy v
  | none => false

/-- The JavaScript expression a or-else b on optional strings: b when a is falsy. -/
def jsOrStr (a b : Option String) : Option String :=
  if jsTruthyOptStr a then a else b

/-- extend(target, source): source entries overwrite target entries in place, new keys
are appended in source order. -/
def extendMap (base extra : TMap) : TMap :=
  extra.foldl (fun acc p => minsert p.1 p.2 acc) base

/-- The reject package: drop entries whose value is null or undefined. -/
def rejectFields : TMap → TMap
  | [] => []
  | p :: rest => if isNullish p.2 then rejectFields rest else p :: rejectFields rest

/-- ms of five days, the historical-import threshold (ms of 5d in the source). -/
def msFiveDays : Int := 432000000

/-- shouldImport from the source: the message timestamp (defaulting to now when absent)
is more than five days before now. -/
def shouldImport (now : Int) (ts : Option Int) : Bool :=
  decide (now - ts.getD now > msFiveDays)

/-- The unix-time package applied to the track timestamp: epoch seconds, floored.  A
missing timestamp yields NaN in JavaScript; it is modelled as undefined here (no claim
exercises it). -/
def jsUnixTime : Option Int → Val
  | some ms => .vNum ((ms.fdiv 1000 : Int) : Rat)
  | none => .vUndefined

/-- A track event, with the facade accessors the source reads flattened into fields.
The userAgent-derived browser and os names stand for the black-box ua-parser result. -/
structure Track where
  event : String
  userId : Option String
  sessionId : Option String
  timestamp : Option Int
  revenue : Option Rat
  properties : TMap
  traits : TMap
  identifyName : Option String
  identifyEmail : Option String
  ip : Option String
  libName : String
  libVersion : Option String
  userAgent : Option String
  uaBrowserName : Option String
  uaOsName : Option String
  searchEngine : Option Val
  referrer : Option Val
  username : Option Val
  osName : Option Val
  osVersion : Option Val
  manufacturer : Option Val
  screenDensity : Option Val
  screenHeight : Option Val
  screenWidth : Option Val
  bluetooth : Option Val
  cellular : Option Val
  carrier : Option Val
  appVersion : Option Val
  wifi : Option Val
  brand : Option Val
  deviceModel : Option Val
  appBuild : Option Val
  optionsIgnoreIp : Option Val

/-- formatProperties from the source: extend the raw properties with the semantic
Mixpanel property set, delete the re-derived generic names through obj-case (default
normalizer), add the name tag, reject null and undefined values, stringify nested
objects, and finally override browser and os from the parsed user agent. -/
def formatProperties (t : Track) (s : Settings) : TMap :=
  let ps := t.properties
  let ps := minsert "token" (optStr s.token) ps
  let ps := minsert "distinct_id" (optStr (jsOrStr t.userId t.sessionId)) ps
  let ps := minsert "time" (jsUnixTime t.timestamp) ps
  let ps := minsert "mp_lib" (.vStr ("Segment: " ++ t.libName)) ps
  let ps := minsert "$lib_version" (optStr t.libVersion) ps
  let ps := minsert "$search_engine" (optVal t.searchEngine) ps
  let ps := minsert "$referrer" (optVal t.referrer) ps
  let ps := minsert "$username" (optVal t.username) ps
  let ps := minsert "$os" (optVal t.osName) ps
  let ps := minsert "$os_version" (optVal t.osVersion) ps
  let ps := minsert "$manufacturer" (optVal t.manufacturer) ps
  let ps := minsert "$screen_dpi" (optVal t.screenDensity) ps
  let ps := minsert "$screen_height" (optVal t.screenHeight) ps
  let ps := minsert "$screen_width" (optVal t.screenWidth) ps
  let ps := minsert "$bluetooth_enabled" (optVal t.bluetooth) ps
  let ps := minsert "$has_telephone" (optVal t.cellular) ps
  let ps := minsert "$carrier" (optVal t.carrier) ps
  let ps := minsert "$app_version" (optVal t.appVersion) ps
  let ps := minsert "$wifi" (optVal t.wifi) ps
  let ps := minsert "$brand" (optVal t.brand) ps
  let ps := minsert "$model" (optVal t.deviceModel) ps
  let ps := minsert "$app_release" (optVal t.appBuild) ps
  let ps := minsert "ip" (optStr t.ip) ps
  let ps := delNormFirst defaultNorm "referrer" ps
  let ps := delNormFirst defaultNorm "username" ps
  let ps := delNormFirst defaultNorm "searchEngine" ps
  let ps := minsert "mp_name_tag"
    (optStr (jsOrStr t.identifyName
      (jsOrStr t.identifyEmail (jsOrStr t.userId t.sessionId)))) ps
  let ps := rejectFields ps
  let ps := stringifyFields ps
  if jsTruthyOptStr t.userAgent then
    minsert "$os" (optStr t.uaOsName) (minsert "$browser" (optStr t.uaBrowserName) ps)
  else ps

/-- superProperties from the source: the formatted identify traits of the event, with
every key not already starting with the dollar marker re-prefixed when
legacySuperProperties is set. -/
def superProperties (t : Track) (s : Settings) : TMap :=
  (formatTraits t.traits).foldl
    (fun acc p =>
      minsert
        (if s.legacySuperProperties && !(p.1.startsWith "$") then "$" ++ p.1 else p.1)
        p.2 acc)
    []

/-- The track payload: event name plus formatted properties extended with the super
properties. -/
def trackPayload (t : Track) (s : Settings) : Val :=
  .vObj [("event", .vStr t.event),
         ("properties", .vObj (extendMap (formatProperties t s) (superProperties t s)))]

/-- The query of the primary track call; superagent drops an undefined api_key, so the
parameter is present exactly when the setting is. -/
def trackQuery (t : Track) (s : Settings) : List (String × String) :=
  [("verbose", "1"), ("data", b64encode (trackPayload t s))] ++
    (match s.apiKey with
     | some k => [("api_key", k)]
     | none => [])

/-- The primary call of a track event: POSTed to the import endpoint when the event is
old enough for historical import, to the real-time endpoint otherwise; the request is
the same in every other respect. -/
def primaryTrackCall (now : Int) (t : Track) (s : Settings) : Call :=
  ⟨"POST", if shouldImport now t.timestamp then "/import" else "/track", true,
    trackQuery t s⟩

/-- The resolved ignoreIp flag of the revenue call: the options.ignoreIp override when
present, true by default. -/
def revenueIgnoreIp (t : Track) : Bool :=
  match t.optionsIgnoreIp with
  | none => true
  | some v => jsTruthy v

/-- formatRevenue from the source. -/
def formatRevenue (t : Track) (s : Settings) : Val :=
  .vObj [("$distinct_id", optStr (jsOrStr t.userId t.sessionId)),
         ("$token", optStr s.token),
         ("$ip", optStr t.ip),
         ("$append", .vObj
           [("$transactions", .vObj
             [("$time", formatDateVal (match t.timestamp with
                | some ms => .vDate ms
                | none => .vUndefined)),
              ("$amount", match t.revenue with
                | some q => .vNum q
                | none => .vUndefined)])])]

/-- The single revenue call: a GET against the people-profile endpoint, with the ip
suppression flag attached exactly when the resolved ignoreIp holds. -/
def revenueCall (t : Track) (s : Settings) : Call :=
  ⟨"GET", "/engage", false,
    (if revenueIgnoreIp t then [("ip", "0")] else []) ++
      [("verbose", "1"), ("data", b64encode (formatRevenue t s))]⟩

/-- JavaScript toLowerCase on the ASCII range, as a structural character map. -/
def jsToLowerCase (s : String) : String :=
  String.mk (s.toList.map Char.toLower)

/-- The lowercase array helper of the source. -/
def lowercase (arr : List String) : List String :=
  arr.map jsToLowerCase

/-- getIncrements from the source: when the lowercased allow-list contains the
lowercased event name, the pair of the $set map (Last event: formatted date) and the
$add map (event: 1); nothing otherwise. -/
def getIncrements (t : Track) (s : Settings) : Option (TMap × TMap) :=
  if (lowercase s.increments).contains (jsToLowerCase t.event) then
    some ([("Last " ++ t.event, formatDateVal (match t.timestamp with
              | some ms => .vDate ms
              | none => .vUndefined))],
          [(t.event, .vNum 1)])
  else none

/-- One of the two engage calls of the increment operation, for the given operation
key ($add or $set) and its object. -/
def incrementCall (t : Track) (s : Settings) (typ : String) (obj : TMap) : Call :=
  ⟨"GET", "/engage", false,
    [("ip", "0"), ("verbose", "1"),
     ("data", b64encode (.vObj
       [("$distinct_id", optStr t.userId),
        ("$token", optStr s.token),
        ("mp_lib", .vStr "Segment.io"),
        (typ, .vObj obj)]))]⟩

/-- The increment operation: the planned calls together with the synchronous error of
the operation (always none: both ignore branches invoke the callback with no arguments,
and network outcomes are external). -/
def incrementOp (t : Track) (s : Settings) : List Call × Option String :=
  match getIncrements t s with
  | none => ([], none)
  | some inc =>
    if jsTruthyOptStr t.userId = false then ([], none)
    else ([incrementCall t s "$add" inc.2, incrementCall t s "$set" inc.1], none)

/-- Truthiness of the revenue accessor, which gates the revenue fan-out call. -/
def revTruthy (t : Track) : Bool :=
  match t.revenue with
  | some q => decide (q ≠ 0)
  | none => false

/-- The full fan-out of a track event: the increment side calls when people is set,
then the primary call, then the revenue call when a revenue value is present. -/
def trackPlan (now : Int) (t : Track) (s : Settings) : List Call :=
  (if s.people then (incrementOp t s).1 else []) ++ [primaryTrackCall now t s] ++
    (if revTruthy t then [revenueCall t s] else [])

/-- The event types of the facade. -/
inductive MsgType where
  | mIdentify
  | mTrack
  | mPage
  | mScreen
  | mAlias
  | mGroup
deriving DecidableEq

/-- A message as seen by the validation gate: its type and timestamp. -/
structure Msg where
  type : MsgType
  timestamp : Option Int

/-- The apiKey ensure rule of the source: with a truthy apiKey the rule passes; it also
passes for every non-track message type and for messages not routed to historical
import; otherwise it is invalid. -/
def ensureApiKey (now : Int) (m : Msg) (s : Settings) : Option String :=
  if jsTruthyOptStr s.apiKey then none
  else if m.type ≠ MsgType.mTrack then none
  else if shouldImport now m.timestamp then
    some ".apiKey is required if \"track\" message is older than 5 days."
  else none

/-- ms of five years, the stale-message threshold of validation rule 2.  Modelled from
the spec (five years of 365 days); the rule itself is not in the sources. -/
def msFiveYears : Int := 157680000000

/-- Modelled from the spec: the pre-flight validation gate.  Rule 1 (settings.token
present) and rule 3 (the apiKey ensure) are in the sources; rule 2 (reject events whose
age exceeds 5 years) is only evidenced by the repository test suite, its implementing
code not being among the sources, and is taken from the spec here.  Validation runs
before any network call; a some result is a validation error. -/
def validateMsg (now : Int) (m : Msg) (s : Settings) : Option String :=
  if jsTruthyOptStr s.token = false then some "settings.token is required"
  else if now - m.timestamp.getD now > msFiveYears then
    some "message timestamp is older than 5 years"
  else ensureApiKey now m s

/-- An identify event, with the facade accessors the source reads flattened into
fields. -/
structure IdentifyMsg where
  userId : Option String
  sessionId : Option String
  timestamp : Int
  traits : TMap
  ip : Option String
  active : Bool
  libName : String
  ctxIgnoreIp : Option Val
  ctxMpIgnoreIp : Option Val
  ctxIgnoreTime : Option Val
  ctxMpIgnoreTime : Option Val
  deviceToken : Option String

/-- The base payload shared by the identify calls. -/
def identifyBasePayload (i : IdentifyMsg) (s : Settings) : TMap :=
  [("$distinct_id", optStr (jsOrStr i.userId i.sessionId)),
   ("$token", optStr s.token),
   ("$time", .vNum (i.timestamp : Rat)),
   ("$ip", if jsTruthyOpt i.ctxIgnoreIp || jsTruthyOpt i.ctxMpIgnoreIp then .vNum 0
     else match i.ip with
       | some p => if p = "" then .vNum 0 else .vStr p
       | none => .vNum 0),
   ("$ignore_time", .vBool
     (jsTruthyOpt i.ctxIgnoreTime || jsTruthyOpt i.ctxMpIgnoreTime || !i.active)),
   ("mp_lib", .vStr ("Segment: " ++ i.libName))]

/-- The $set call of identify. -/
def identifySetCall (i : IdentifyMsg) (s : Settings) : Call :=
  ⟨"GET", "/engage", false,
    [("data", b64encode (.vObj (extendMap
        [("$set", .vObj (formatTraits i.traits))] (identifyBasePayload i s)))),
     ("ip", "0"), ("verbose", "1")]⟩

/-- The $union device-token call of identify. -/
def identifyUnionCall (i : IdentifyMsg) (s : Settings) (dt : String) : Call :=
  ⟨"GET", "/engage", false,
    [("data", b64encode (.vObj (extendMap
        [("$union", .vObj [("$ios_devices", .vArr [.vStr dt])])]
        (identifyBasePayload i s)))),
     ("ip", "0"), ("verbose", "1")]⟩

/-- The identify operation: with people unset it short-circuits through tick(fn),
making zero calls and invoking the callback with no error; otherwise it issues the
$set call, plus the $union call when a device token is present.  The Option String
component is the synchronous error of the operation (always none; network outcomes are
external). -/
def identifyOp (i : IdentifyMsg) (s : Settings) : List Call × Option String :=
  if s.people = false then ([], none)
  else
    ([identifySetCall i s] ++
      (if jsTruthyOptStr i.deviceToken then [identifyUnionCall i s (i.deviceToken.getD "")]
       else []), none)

/-- A group event. -/
structure GroupMsg where
  groupId : String
  userId : Option String
  timestamp : Int
  traits : TMap

/-- The trait preparation of the group call: copy name to $name (undefined when name is
absent), set isGroup, then obj-case delete of name with the default normalizer (which
also strips dollar signs, so the first key normalizing to name is removed). -/
def groupTraits (g : GroupMsg) : TMap :=
  delNormFirst defaultNorm "name"
    (minsert "isGroup" (.vBool true)
      (minsert "$name" (optVal (mlookup g.traits "name")) g.traits))

/-- The identifiers bound at module scope of the older source file that defines
group(): the ten require results and the Mixpanel export.  identify is not among
them (the analogous identify method reads its own identify parameter; group() has no
such parameter). -/
def groupFileBindings : List String :=
  ["integration", "parse", "object", "time", "extend", "reject", "Batch", "tick",
   "ms", "is", "Mixpanel"]

/-- Reading an identifier against that module scope: none when the name is bound (the
bound values are host objects whose content group() never reaches), otherwise the
thrown ReferenceError. -/
def groupScopeThrow (name : String) : Option String :=
  if groupFileBindings.contains name then none
  else some ("ReferenceError: " ++ name ++ " is not defined")

/-- The group operation of the source.  With people unset it ticks the callback: zero
calls, success.  With people set, the trait preparation (groupTraits) runs and then the
group_payload object literal is built; its property values are evaluated in source
order, and the mp_lib expression reads the identifier identify, so the construction
raises whatever groupScopeThrow yields for identify — the ReferenceError — before the
first engage request is ever reached.  The two dependent requests in the source text
below this point (the group-profile upsert, then on its success the user-union call)
are dead code downstream of the throw and can never be issued; hence no call list
other than the empty one is producible and the thrown error is the outcome. -/
def groupOp (g : GroupMsg) (s : Settings) : List Call × Option String :=
  if s.people = false then ([], none)
  else ([], groupScopeThrow "identify")

/-- A page or screen event as the fan-out policy sees it: its category and full name. -/
structure PageMsg where
  category : Option String
  name : Option String

/-- One planned page/screen call: the generic consolidated call, the default-named
call, or a call named by category or name. -/
inductive PageCall where
  | generic
  | defaultName
  | named (n : String)

/-- Modelled from the spec: the event name of the categorized branch, the category (or
category plus name when a name also exists). -/
def categoryEventName (p : PageMsg) : String :=
  let c := p.category.getD ""
  if jsTruthyOptStr p.name then c ++ " " ++ p.name.getD "" else c

/-- Modelled from the spec: the page/screen fan-out policy including
consolidatedPageCalls.  The page implementation carrying the consolidation branch is
not among the sources (only its tests are); per the spec, consolidatedPageCalls emits
exactly one generic-named call and stops, else legacy trackAllPages emits one
default-named call and stops, else the categorized and named branches are evaluated
independently. -/
def pagePlan (p : PageMsg) (s : Settings) : List PageCall :=
  if s.consolidatedPageCalls then [PageCall.generic]
  else if s.trackAllPages then [PageCall.defaultName]
  else
    (if jsTruthyOptStr p.category && s.trackCategorizedPages then
      [PageCall.named (categoryEventName p)]
     else []) ++
    (if jsTruthyOptStr p.name && s.trackNamedPages then
      [PageCall.named (p.name.getD "")]
     else [])

/-- The generic (Segment-side) keys of the trait alias table. -/
def genericTraitKeys : List String :=
  ["created", "createdAt", "email", "firstName", "lastName", "lastSeen", "name",
   "username", "phone", "token"]

/-- The concrete identify trait map refuting claim C1. -/
def c1Input : TMap :=
  [("name", Val.vStr "Bob"), ("createdAt", Val.vDate 1357000000000),
   ("email", Val.vObj [("a", Val.vNum 1)])]

set_option maxRecDepth 40000

/-- Claim C1 is false as stated: on an identify whose traits contain name, createdAt
and an object-valued email, formatTraits leaves no $name key at all (so $name does not
hold the original name value), leaves no $last_seen key (so createdAt does not map to
$last_seen), maps createdAt to a formatted-date $created instead, and stringifies the
object-valued email rather than keeping the original value. -/
theorem mixpanel_c1_counterexample :
    mlookup c1Input "name" = some (Val.vStr "Bob")
  ∧ mlookup c1Input "createdAt" = some (Val.vDate 1357000000000)
  ∧ mlookup (formatTraits c1Input) "$name" = none
  ∧ mlookup (formatTraits c1Input) "$last_seen" = none
  ∧ mlookup (formatTraits c1Input) "$created" = some (Val.vStr "2013-01-01T00:26:40")
  ∧ mlookup (formatTraits c1Input) "$email" ≠ some (Val.vObj [("a", Val.vNum 1)]) := by
  refine ⟨rfl, rfl, rfl, rfl, rfl, ?_⟩
  intro h
  have e : mlookup (formatTraits c1Input) "$email" =
      some (Val.vStr "\x7b\"a\":1\x7d") := rfl
  exact Val.noConfusion (Option.some.inj (e.symm.trans h))

/-- Claim C1, amended to what the code does: every generic alias key is absent from the
formatTraits output (whenever present its value was non-null; null and undefined values
are skipped by the facade alias pass); $name is always deleted (facade decomposes name
into firstName and lastName); for firstName, lastName, email, phone, username, token
and lastSeen the destination key ($first_name, $last_name, $email, $phone, $username,
trait_token, $last_seen) holds the original value, stringified if it was a nested
object; created and createdAt both map to $created (createdAt taking precedence), whose
truthy value is replaced by its formatted date before stringification. -/
theorem mixpanel_c1_amended (m : TMap) :
    (∀ g ∈ genericTraitKeys, (∀ v, mlookup m g = some v → isNullish v = false) →
      mlookup (formatTraits m) g = none)
  ∧ mlookup (formatTraits m) "$name" = none
  ∧ (∀ v, mlookup m "email" = some v → isNullish v = false →
      mlookup (formatTraits m) "$email" = some (stringifyOne v))
  ∧ (∀ v, mlookup m "firstName" = some v → isNullish v = false →
      mlookup (formatTraits m) "$first_name" = some (stringifyOne v))
  ∧ (∀ v, mlookup m "lastName" = some v → isNullish v = false →
      mlookup (formatTraits m) "$last_name" = some (stringifyOne v))
  ∧ (∀ v, mlookup m "phone" = some v → isNullish v = false →
      mlookup (formatTraits m) "$phone" = some (stringifyOne v))
  ∧ (∀ v, mlookup m "username" = some v → isNullish v = false →
      mlookup (formatTraits m) "$username" = some (stringifyOne v))
  ∧ (∀ v, mlookup m "token" = some v → isNullish v = false →
      mlookup (formatTraits m) "trait_token" = some (stringifyOne v))
  ∧ (∀ v, mlookup m "lastSeen" = some v → isNullish v = false →
      mlookup (formatTraits m) "$last_seen" = some (stringifyOne v))
  ∧ (∀ v, mlookup m "createdAt" = some v → isNullish v = false →
      mlookup (formatTraits m) "$created" =
        some (stringifyOne (if jsTruthy v then formatDateVal v else v)))
  ∧ (∀ v, mlookup m "createdAt" = none → mlookup m "created" = some v →
      isNullish v = false →
      mlookup (formatTraits m) "$created" =
        some (stringifyOne (if jsTruthy v then formatDateVal v else v))) := by
  refine ⟨?_, formatTraits_dollar_name m, ?_, ?_, ?_, ?_, ?_, ?_, ?_, ?_, ?_⟩
  · intro g hg hnn
    simp only [genericTraitKeys] at hg
    fin_cases hg
    · exact formatTraits_generic_gone m _ (applyAliases_gone "created" "$created" []
        [("createdAt", "$created"), ("email", "$email"), ("firstName", "$first_name"),
         ("lastName", "$last_name"), ("lastSeen", "$last_seen"), ("name", "$name"),
         ("username", "$username"), ("phone", "$phone"), ("token", "trait_token")]
        m rfl (by decide) (by decide) (by decide) hnn) (by decide) (by decide)
    · exact formatTraits_generic_gone m _ (applyAliases_gone "createdAt" "$created"
        [("created", "$created")]
        [("email", "$email"), ("firstName", "$first_name"), ("lastName", "$last_name"),
         ("lastSeen", "$last_seen"), ("name", "$name"), ("username", "$username"),
         ("phone", "$phone"), ("token", "trait_token")]
        m rfl (by decide) (by decide) (by decide) hnn) (by decide) (by decide)
    · exact formatTraits_generic_gone m _ (applyAliases_gone "email" "$email"
        [("created", "$created"), ("createdAt", "$created")]
        [("firstName", "$first_name"), ("lastName", "$last_name"),
         ("lastSeen", "$last_seen"), ("name", "$name"), ("username", "$username"),
         ("phone", "$phone"), ("token", "trait_token")]
        m rfl (by decide) (by decide) (by decide) hnn) (by decide) (by decide)
    · exact formatTraits_generic_gone m _ (applyAliases_gone "firstName" "$first_name"
        [("created", "$created"), ("createdAt", "$created"), ("email", "$email")]
        [("lastName", "$last_name"), ("lastSeen", "$last_seen"), ("name", "$name"),
         ("username", "$username"), ("phone", "$phone"), ("token", "trait_token")]
        m rfl (by decide) (by decide) (by decide) hnn) (by decide) (by decide)
    · exact formatTraits_generic_gone m _ (applyAliases_gone "lastName" "$last_name"
        [("created", "$created"), ("createdAt", "$created"), ("email", "$email"),
         ("firstName", "$first_name")]
        [("lastSeen", "$last_seen"), ("name", "$name"), ("username", "$username"),
         ("phone", "$phone"), ("token", "trait_token")]
        m rfl (by decide) (by decide) (by decide) hnn) (by decide) (by decide)
    · exact formatTraits_generic_gone m _ (applyAliases_gone "lastSeen" "$last_seen"
        [("created", "$created"), ("createdAt", "$created"), ("email", "$email"),
         ("firstName", "$first_name"), ("lastName", "$last_name")]
        [("name", "$name"), ("username", "$username"), ("phone", "$phone"),
         ("token", "trait_token")]
        m rfl (by decide) (by decide) (by decide) hnn) (by decide) (by decide)
    · exact formatTraits_generic_gone m _ (applyAliases_gone "name" "$name"
        [("created", "$created"), ("createdAt", "$created"), ("email", "$email"),
         ("firstName", "$first_name"), ("lastName", "$last_name"),
         ("lastSeen", "$last_seen")]
        [("username", "$username"), ("phone", "$phone"), ("token", "trait_token")]
        m rfl (by decide) (by decide) (by decide) hnn) (by decide) (by decide)
    · exact formatTraits_generic_gone m _ (applyAliases_gone "username" "$username"
        [("created", "$created"), ("createdAt", "$created"), ("email", "$email"),
         ("firstName", "$first_name"), ("lastName", "$last_name"),
         ("lastSeen", "$last_seen"), ("name", "$name")]
        [("phone", "$phone"), ("token", "trait_token")]
        m rfl (by decide) (by decide) (by decide) hnn) (by decide) (by decide)
    · exact formatTraits_generic_gone m _ (applyAliases_gone "phone" "$phone"
        [("created", "$created"), ("createdAt", "$created"), ("email", "$email"),
         ("firstName", "$first_name"), ("lastName", "$last_name"),
         ("lastSeen", "$last_seen"), ("name", "$name"), ("username", "$username")]
        [("token", "trait_token")]
        m rfl (by decide) (by decide) (by decide) hnn) (by decide) (by decide)
    · exact formatTraits_generic_gone m _ (applyAliases_gone "token" "trait_token"
        [("created", "$created"), ("createdAt", "$created"), ("email", "$email"),
         ("firstName", "$first_name"), ("lastName", "$last_name"),
         ("lastSeen", "$last_seen"), ("name", "$name"), ("username", "$username"),
         ("phone", "$phone")]
        [] m rfl (by decide) (by decide) (by decide) hnn) (by decide) (by decide)
  · intro v hv hnn
    exact formatTraits_dest m _ v (applyAliases_dest "email" "$email"
      [("created", "$created"), ("createdAt", "$created")]
      [("firstName", "$first_name"), ("lastName", "$last_name"),
       ("lastSeen", "$last_seen"), ("name", "$name"), ("username", "$username"),
       ("phone", "$phone"), ("token", "trait_token")]
      m v rfl (by decide) (by decide) hv hnn) (by decide) (by decide) (by decide)
  · intro v hv hnn
    exact formatTraits_dest m _ v (applyAliases_dest "firstName" "$first_name"
      [("created", "$created"), ("createdAt", "$created"), ("email", "$email")]
      [("lastName", "$last_name"), ("lastSeen", "$last_seen"), ("name", "$name"),
       ("username", "$username"), ("phone", "$phone"), ("token", "trait_token")]
      m v rfl (by decide) (by decide) hv hnn) (by decide) (by decide) (by decide)
  · intro v hv hnn
    exact formatTraits_dest m _ v (applyAliases_dest "lastName" "$last_name"
      [("created", "$created"), ("createdAt", "$created"), ("email", "$email"),
       ("firstName", "$first_name")]
      [("lastSeen", "$last_seen"), ("name", "$name"), ("username", "$username"),
       ("phone", "$phone"), ("token", "trait_token")]
      m v rfl (by decide) (by decide) hv hnn) (by decide) (by decide) (by decide)
  · intro v hv hnn
    exact formatTraits_dest m _ v (applyAliases_dest "phone" "$phone"
      [("created", "$created"), ("createdAt", "$created"), ("email", "$email"),
       ("firstName", "$first_name"), ("lastName", "$last_name"),
       ("lastSeen", "$last_seen"), ("name", "$name"), ("username", "$username")]
      [("token", "trait_token")]
      m v rfl (by decide) (by decide) hv hnn) (by decide) (by decide) (by decide)
  · intro v hv hnn
    exact formatTraits_dest m _ v (applyAliases_dest "username" "$username"
      [("created", "$created"), ("createdAt", "$created"), ("email", "$email"),
       ("firstName", "$first_name"), ("lastName", "$last_name"),
       ("lastSeen", "$last_seen"), ("name", "$name")]
      [("phone", "$phone"), ("token", "trait_token")]
      m v rfl (by decide) (by decide) hv hnn) (by decide) (by decide) (by decide)
  · intro v hv hnn
    exact formatTraits_dest m _ v (applyAliases_dest "token" "trait_token"
      [("created", "$created"), ("createdAt", "$created"), ("email", "$email"),
       ("firstName", "$first_name"), ("lastName", "$last_name"),
       ("lastSeen", "$last_seen"), ("name", "$name"), ("username", "$username"),
       ("phone", "$phone")]
      [] m v rfl (by decide) (by decide) hv hnn) (by decide) (by decide) (by decide)
  · intro v hv hnn
    exact formatTraits_dest m _ v (applyAliases_dest "lastSeen" "$last_seen"
      [("created", "$created"), ("createdAt", "$created"), ("email", "$email"),
       ("firstName", "$first_name"), ("lastName", "$last_name")]
      [("name", "$name"), ("username", "$username"), ("phone", "$phone"),
       ("token", "trait_token")]
      m v rfl (by decide) (by decide) hv hnn) (by decide) (by decide) (by decide)
  · intro v hv hnn
    exact formatTraits_created_dest m v (applyAliases_dest "createdAt" "$created"
      [("created", "$created")]
      [("email", "$email"), ("firstName", "$first_name"), ("lastName", "$last_name"),
       ("lastSeen", "$last_seen"), ("name", "$name"), ("username", "$username"),
       ("phone", "$phone"), ("token", "trait_token")]
      m v rfl (by decide) (by decide) hv hnn)
  · intro v hca hv hnn
    exact formatTraits_created_dest m v (applyAliases_created_only m v hca hv hnn)

/-- Witness for the amended claim C1 at a concrete identify trait map. -/
theorem mixpanel_c1_amended_witness :
    mlookup (formatTraits [("firstName", Val.vStr "Ann")]) "firstName" = none
  ∧ mlookup (formatTraits [("firstName", Val.vStr "Ann")]) "$first_name" =
      some (Val.vStr "Ann") := by
  have h := mixpanel_c1_amended [("firstName", Val.vStr "Ann")]
  constructor
  · refine h.1 "firstName" (by simp [genericTraitKeys]) ?_
    intro v hv
    have hv2 : Val.vStr "Ann" = v := Option.some.inj hv
    rw [← hv2]
    rfl
  · exact h.2.2.2.1 (Val.vStr "Ann") rfl rfl

/-- A concrete track event used by witnesses: a Purchase with user u1, a fixed
timestamp, revenue 5 and no overrides. -/
def sampleTrack : Track :=
  ⟨"Purchase", some "u1", none, some 1600000000000, some 5, [], [], none, none,
   some "1.2.3.4", "node", none, none, none, none, none, none, none, none, none, none,
   none, none, none, none, none, none, none, none, none, none, none, none⟩

/-- Concrete settings used by witnesses: token and apiKey present, people enabled,
purchase in the increment allow-list. -/
def sampleSettings : Settings :=
  ⟨some "tok", some "key", true, ["purchase"], false, false, false, false, false⟩

/-- Claim C2: shouldImport holds exactly when now minus the timestamp (defaulting to
now when absent) strictly exceeds five days; the primary track call POSTs to the import
endpoint exactly then and to the real-time endpoint otherwise, with method, header and
query independent of the route; at five days minus one second the route is real-time,
at five days plus one second it is import, and at exactly five days it is real-time. -/
theorem mixpanel_c2_import_routing (now : Int) (t : Track) (s : Settings) :
    (primaryTrackCall now t s).endpoint =
      (if now - t.timestamp.getD now > msFiveDays then "/import" else "/track")
  ∧ shouldImport now t.timestamp = decide (now - t.timestamp.getD now > msFiveDays)
  ∧ (primaryTrackCall now t s).method = "POST"
  ∧ (primaryTrackCall now t s).lengthZero = true
  ∧ (primaryTrackCall now t s).query = trackQuery t s
  ∧ primaryTrackCall now t s ∈ trackPlan now t s
  ∧ shouldImport 431999000 (some 0) = false
  ∧ shouldImport 432000000 (some 0) = false
  ∧ shouldImport 432001000 (some 0) = true
  ∧ (∀ n : Int, shouldImport n none = false) := by
  refine ⟨?_, rfl, rfl, rfl, rfl, ?_, by decide, by decide, by decide, ?_⟩
  · by_cases h : now - t.timestamp.getD now > msFiveDays <;>
      simp [primaryTrackCall, shouldImport, h]
  · simp [trackPlan]
  · intro n
    simp [shouldImport, msFiveDays]

/-- Claim C3 (spec-modelled rule): every message whose age exceeds five years fails the
pre-flight validation gate, whatever its type and settings. -/
theorem mixpanel_c3_stale_rejected (now : Int) (m : Msg) (s : Settings)
    (h : now - m.timestamp.getD now > msFiveYears) :
    (validateMsg now m s).isSome = true := by
  unfold validateMsg
  by_cases ht : jsTruthyOptStr s.token = false
  · simp [ht]
  · simp [ht, h]

/-- Witness for claim C3 at a concrete stale identify message. -/
theorem mixpanel_c3_stale_rejected_witness :
    (validateMsg 200000000000 ⟨MsgType.mIdentify, some 0⟩ sampleSettings).isSome =
      true :=
  mixpanel_c3_stale_rejected 200000000000 ⟨MsgType.mIdentify, some 0⟩ sampleSettings
    (by decide)

/-- Settings with no apiKey, used by the C4 counterexample. -/
def noKeySettings : Settings :=
  ⟨some "tok", none, true, [], false, false, false, false, false⟩

/-- Claim C4 is false as stated: a screen message six days old with no apiKey passes
the ensure rule (the source checks only the track type, never screen), although the
claim requires it to be rejected. -/
theorem mixpanel_c4_counterexample :
    noKeySettings.apiKey = none
  ∧ (⟨MsgType.mScreen, some 481600000000⟩ : Msg).type = MsgType.mScreen
  ∧ shouldImport 482118400000 (some 481600000000) = true
  ∧ ensureApiKey 482118400000 ⟨MsgType.mScreen, some 481600000000⟩ noKeySettings =
      none := by
  exact ⟨rfl, rfl, by decide, rfl⟩

/-- Claim C4, amended to what the code does: with settings.apiKey absent the ensure
rule rejects exactly the track messages older than five days; screen messages (like all
other non-track types) always pass this rule, as do younger track messages. -/
theorem mixpanel_c4_amended (now : Int) (m : Msg) (s : Settings)
    (h : s.apiKey = none) :
    (ensureApiKey now m s).isSome = true ↔
      (m.type = MsgType.mTrack ∧ shouldImport now m.timestamp = true) := by
  unfold ensureApiKey
  rw [h]
  by_cases ht : m.type = MsgType.mTrack
  · cases hs : shouldImport now m.timestamp <;> simp [jsTruthyOptStr, ht, hs]
  · simp [jsTruthyOptStr, ht]

/-- Witness for the amended claim C4 at a concrete six-day-old track message. -/
theorem mixpanel_c4_amended_witness :
    (ensureApiKey 482118400000 ⟨MsgType.mTrack, some 481600000000⟩
        noKeySettings).isSome = true ↔
      ((⟨MsgType.mTrack, some 481600000000⟩ : Msg).type = MsgType.mTrack ∧
        shouldImport 482118400000 (some 481600000000) = true) :=
  mixpanel_c4_amended 482118400000 ⟨MsgType.mTrack, some 481600000000⟩ noKeySettings
    rfl

/-- Claim C5 (spec-modelled policy): when consolidatedPageCalls is set, the page/screen
plan is exactly one generic-named call, independently of every other flag; otherwise,
when trackAllPages is set, the plan is exactly one default-named call, with the
categorized and named branches never evaluated. -/
theorem mixpanel_c5_page_policy (p : PageMsg) (s : Settings) :
    (s.consolidatedPageCalls = true → pagePlan p s = [PageCall.generic])
  ∧ (s.consolidatedPageCalls = false → s.trackAllPages = true →
      pagePlan p s = [PageCall.defaultName]) := by
  constructor
  · intro h
    simp [pagePlan, h]
  · intro h1 h2
    simp [pagePlan, h1, h2]

/-- Witness for claim C5: with category and name present and all other flags set, the
consolidated plan is still the single generic call, and in legacy mode the plan is the
single default-named call. -/
theorem mixpanel_c5_page_policy_witness :
    pagePlan ⟨some "Docs", some "Home"⟩
      ⟨some "tok", none, true, [], false, true, true, true, true⟩ =
      [PageCall.generic]
  ∧ pagePlan ⟨some "Docs", some "Home"⟩
      ⟨some "tok", none, true, [], false, true, true, true, false⟩ =
      [PageCall.defaultName] :=
  ⟨(mixpanel_c5_page_policy _ _).1 rfl, (mixpanel_c5_page_policy _ _).2 rfl rfl⟩

/-- Claim C6: the increment operation issues its two calls (an $add of one to the event
name and a $set of the formatted date under Last plus the event name, both over the
distinct-id/token/library skeleton) exactly when the allow-list contains the event name
case-insensitively and the event has a truthy user id; otherwise it makes zero calls
and completes without error. -/
theorem mixpanel_c6_increment (t : Track) (s : Settings) :
    ((incrementOp t s).1 ≠ [] ↔
      ((lowercase s.increments).contains (jsToLowerCase t.event) = true ∧
        jsTruthyOptStr t.userId = true))
  ∧ ((lowercase s.increments).contains (jsToLowerCase t.event) = true →
      jsTruthyOptStr t.userId = true →
      (incrementOp t s).1 =
        [incrementCall t s "$add" [(t.event, Val.vNum 1)],
         incrementCall t s "$set"
           [("Last " ++ t.event, formatDateVal (match t.timestamp with
              | some ms => Val.vDate ms
              | none => Val.vUndefined))]])
  ∧ (incrementOp t s).2 = none := by
  unfold incrementOp getIncrements
  cases hc : (lowercase s.increments).contains (jsToLowerCase t.event) with
  | false => simp [hc]
  | true =>
    cases hu : jsTruthyOptStr t.userId with
    | false => simp [hc, hu]
    | true => simp [hc, hu]

/-- Witness for claim C6 at the sample Purchase track. -/
theorem mixpanel_c6_increment_witness :
    (incrementOp sampleTrack sampleSettings).1 =
      [incrementCall sampleTrack sampleSettings "$add" [("Purchase", Val.vNum 1)],
       incrementCall sampleTrack sampleSettings "$set"
         [("Last Purchase", formatDateVal (Val.vDate 1600000000000))]] :=
  (mixpanel_c6_increment sampleTrack sampleSettings).2.1 (by decide) (by decide)

/-- A concrete group event used by witnesses. -/
def sampleGroup : GroupMsg := ⟨"g1", some "u1", 0, []⟩

/-- Claim C7 names a behavior the code cannot exhibit: for every group event with
people enabled, building group_payload reads the undeclared identifier identify and
throws a ReferenceError, so the operation issues zero calls and surfaces that error —
the first call is never issued and the dependent second call is dead code. -/
theorem mixpanel_c7_group_throws (g : GroupMsg) (s : Settings)
    (hp : s.people = true) :
    groupOp g s = ([], some "ReferenceError: identify is not defined") := by
  have h : groupScopeThrow "identify" =
      some "ReferenceError: identify is not defined" := by decide
  simp [groupOp, hp, h]

/-- Witness for the C7 evaluation at a concrete group event. -/
theorem mixpanel_c7_group_throws_witness :
    groupOp sampleGroup sampleSettings =
      ([], some "ReferenceError: identify is not defined") :=
  mixpanel_c7_group_throws sampleGroup sampleSettings rfl

/-- Claim C8: identify with settings.people false makes zero network calls and
completes successfully (the callback receives no error). -/
theorem mixpanel_c8_people_optout (i : IdentifyMsg) (s : Settings)
    (h : s.people = false) : identifyOp i s = ([], none) := by
  simp [identifyOp, h]

/-- A concrete identify event used by witnesses. -/
def sampleIdentify : IdentifyMsg :=
  ⟨some "u1", none, 0, [], none, true, "node", none, none, none, none, none⟩

/-- Settings with people disabled, used by the C8 witness. -/
def noPeopleSettings : Settings :=
  ⟨some "tok", some "key", false, [], false, false, false, false, false⟩

/-- Witness for claim C8 at a concrete identify event. -/
theorem mixpanel_c8_people_optout_witness :
    identifyOp sampleIdentify noPeopleSettings = ([], none) :=
  mixpanel_c8_people_optout sampleIdentify noPeopleSettings rfl

/-- Claim C9: the revenue operation is a single GET against the people-profile
endpoint whose payload is the distinct-id/token/ip skeleton with an append of a
transaction holding the formatted timestamp and the revenue amount; the ignoreIp flag
defaults to true (ip suppression in the query) and follows an explicit options
override otherwise; the track fan-out includes the revenue call whenever the revenue
value is truthy. -/
theorem mixpanel_c9_revenue (now : Int) (t : Track) (s : Settings) :
    revenueCall t s = ⟨"GET", "/engage", false,
      (if revenueIgnoreIp t then [("ip", "0")] else []) ++
        [("verbose", "1"), ("data", b64encode (formatRevenue t s))]⟩
  ∧ formatRevenue t s = Val.vObj
      [("$distinct_id", optStr (jsOrStr t.userId t.sessionId)),
       ("$token", optStr s.token),
       ("$ip", optStr t.ip),
       ("$append", Val.vObj
         [("$transactions", Val.vObj
           [("$time", formatDateVal (match t.timestamp with
              | some ms => Val.vDate ms
              | none => Val.vUndefined)),
            ("$amount", match t.revenue with
              | some q => Val.vNum q
              | none => Val.vUndefined)])])]
  ∧ (t.optionsIgnoreIp = none → revenueIgnoreIp t = true)
  ∧ (∀ v, t.optionsIgnoreIp = some v → revenueIgnoreIp t = jsTruthy v)
  ∧ (revTruthy t = true → revenueCall t s ∈ trackPlan now t s) := by
  refine ⟨rfl, rfl, ?_, ?_, ?_⟩
  · intro h
    simp [revenueIgnoreIp, h]
  · intro v h
    simp [revenueIgnoreIp, h]
  · intro h
    simp [trackPlan, h]

/-- Witness for claim C9 at the sample Purchase track (no override, revenue 5). -/
theorem mixpanel_c9_revenue_witness :
    revenueIgnoreIp sampleTrack = true
  ∧ revenueCall sampleTrack sampleSettings ∈
      trackPlan 1600000000000 sampleTrack sampleSettings := by
  have h := mixpanel_c9_revenue 1600000000000 sampleTrack sampleSettings
  exact ⟨h.2.2.1 rfl, h.2.2.2.2 (by decide)⟩

theorem stringifyOne_idem (v : Val) : stringifyOne (stringifyOne v) = stringifyOne v := by
  cases v <;> rfl

theorem stringifyFields_idem (fs : TMap) :
    stringifyFields (stringifyFields fs) = stringifyFields fs := by
  induction fs with
  | nil => rfl
  | cons p rest ih => simp [stringifyFields, stringifyOne_idem, ih]

/-- Claim C10: stringifyValues is idempotent (after one pass every plain-object value
has become its JSON string, so a second pass changes nothing), and every non-object
input is returned unchanged. -/
theorem mixpanel_c10_stringify_idempotent (v : Val) :
    stringifyValues (stringifyValues v) = stringifyValues v
  ∧ (isObject v = false → stringifyValues v = v) := by
  constructor
  · cases v with
    | vObj fs => simp [stringifyValues, stringifyFields_idem]
    | vStr s => rfl
    | vNum q => rfl
    | vBool b => rfl
    | vNull => rfl
    | vUndefined => rfl
    | vDate ms => rfl
    | vArr xs => rfl
  · intro h
    cases v <;> first
      | rfl
      | simp [isObject] at h

/-- Witness for claim C10: a non-object input is returned unchanged, and a nested
object map is a fixed point after one pass. -/
theorem mixpanel_c10_stringify_idempotent_witness :
    isObject (Val.vStr "x") = false
  ∧ stringifyValues (Val.vStr "x") = Val.vStr "x"
  ∧ stringifyValues (stringifyValues (Val.vObj [("a", Val.vObj [])])) =
      stringifyValues (Val.vObj [("a", Val.vObj [])]) :=
  ⟨rfl, (mixpanel_c10_stringify_idempotent (Val.vStr "x")).2 rfl,
    (mixpanel_c10_stringify_idempotent (Val.vObj [("a", Val.vObj [])])).1⟩

end Mixpanel
